import Mathlib

/-!
Verification development for the council pipeline orchestrator
(`src/council/state.py` and `src/council/pipeline.py`), a four-round
ping-pong workflow between two external command-line agents with a
persisted, resumable checkpoint (`state.json`).

The Python source is shallowly embedded:
* the checkpoint document (a JSON dict in Python) becomes `StateDoc`,
  with the `rounds` mapping kept as an open association list so that
  documents with missing round keys remain representable (as they are
  for Python's `dict.get`);
* external agent invocations (`run_tool` / `run_tools_parallel`) are
  resolved against an `Agents` record of prescribed `ToolResult`s, and
  every invocation is recorded in an ordered call trace;
* every `_write` of the checkpoint is recorded in an ordered write
  trace of full documents;
* saved round artifacts (read back on resume by `_load_round_output`)
  are a partial map from round name and file name to file contents.

Python's `update_round` raises `KeyError` when the round name is not a
key of the rounds dict; the embedding's `StateDoc.updateRound` is total
(it leaves the document unchanged in that case), and every theorem that
relies on an update either works on documents that contain the round
key or on execution paths that perform no update at all.
-/

namespace Council

/-- Round status enumeration from `council.types.RoundStatus`. -/
inductive RoundStatus where
  | pending
  | running
  | ok
  | failed
  | skipped
deriving DecidableEq, Repr

/-- The persisted string value of a `RoundStatus` (`RoundStatus.value`). -/
def RoundStatus.value : RoundStatus → String
  | .pending => "pending"
  | .running => "running"
  | .ok => "ok"
  | .failed => "failed"
  | .skipped => "skipped"

/-- A value of the per-round `tools` mapping in `state.json`: either a
plain per-participant outcome string (`ok`/`failed`/`timed_out`) or a
nested string map (used for the `chosen_candidates` entry). -/
inductive ToolVal where
  | s (v : String)
  | m (kvs : List (String × String))
deriving DecidableEq, Repr

/-- Per-round persisted state: the `rounds[name]` dict of `state.json`. -/
structure RoundState where
  status : String
  tools : List (String × ToolVal)
deriving DecidableEq, Repr

/-- The full persisted checkpoint document (`state.json`).  The
`rounds` field is an association list keyed by round name, mirroring
the JSON object; a well-formed document has exactly the four round
names as keys, but malformed documents with missing keys are
representable. -/
structure StateDoc where
  version : String
  mode : String
  task_preview : String
  tools : List String
  started_at : String
  finished_at : Option String
  status : String
  rounds : List (String × RoundState)
deriving DecidableEq, Repr

/-- Ordered list of all pipeline rounds (`council.state.ROUND_NAMES`). -/
def ROUND_NAMES : List String :=
  ["0_generate", "1_claude_improve", "2_codex_critique", "3_claude_finalize"]

/-- `init_state`: the freshly created document for a new run (all four
rounds `pending`, overall status `running`).  `now` stands for the
ISO-8601 timestamp taken at creation time. -/
def initState (mode task : String) (tools : List String) (now : String) : StateDoc :=
  { version := "1.0"
    mode := mode
    task_preview := task.take 200
    tools := tools
    started_at := now
    finished_at := none
    status := "running"
    rounds := ROUND_NAMES.map fun n => (n, { status := "pending", tools := [] }) }

/-- The mutation `update_round` performs on one round's dict: set the
status string; replace the `tools` map only when the given mapping is
truthy (Python's `if tool_statuses:` treats both `None` and an empty
dict as false). -/
def updateRoundState (rs : RoundState) (st : RoundStatus)
    (ts : Option (List (String × ToolVal))) : RoundState :=
  let rs1 := { rs with status := st.value }
  match ts with
  | none => rs1
  | some [] => rs1
  | some m => { rs1 with tools := m }

/-- `update_round`: update the entry for `round` in the rounds mapping
and leave everything else unchanged.  (Python raises `KeyError` when
`round` is absent; here the document is returned unchanged in that
case, see the file header.) -/
def StateDoc.updateRound (d : StateDoc) (round : String) (st : RoundStatus)
    (ts : Option (List (String × ToolVal))) : StateDoc :=
  { d with rounds := d.rounds.map fun p =>
      if p.1 == round then (p.1, updateRoundState p.2 st ts) else p }

/-- `mark_finished`: set `finished_at` to the current timestamp and the
overall status to the given string. -/
def StateDoc.markFinished (d : StateDoc) (status : String) (now : String) : StateDoc :=
  { d with finished_at := some now, status := status }

/-- The recorded status of a named round, as read through
`state["rounds"].get(name, {}).get("status")`: `none` when the round
key is missing. -/
def StateDoc.roundStatus (d : StateDoc) (name : String) : Option String :=
  (d.rounds.lookup name).map RoundState.status

/-- `get_resume_point`: the first round (in `ROUND_NAMES` order) whose
recorded status is not `"ok"`, or `none` when all four are `"ok"`.
A missing round key reads as status `none`, which is not `"ok"`. -/
def getResumePoint (d : StateDoc) : Option String :=
  ROUND_NAMES.find? fun n => !(d.roundStatus n == some "ok")

/-- `get_failed_rounds`: all round names whose recorded status is
`"failed"`. -/
def getFailedRounds (d : StateDoc) : List String :=
  ROUND_NAMES.filter fun n => d.roundStatus n == some "failed"

/-! ### The pipeline orchestrator (`council.pipeline`) -/

/-- Result of one external agent invocation (`council.types.ToolResult`);
the fields the pipeline logic inspects.  `exit_code` is `none` when the
process was killed on timeout. -/
structure ToolResult where
  exit_code : Option Int
  stdout : String
  stderr : String
  timed_out : Bool
deriving DecidableEq, Repr

/-- `_tool_ok`: a result is a success when its exit code is exactly 0
and its stdout is non-empty. -/
def toolOkB (r : ToolResult) : Bool :=
  r.exit_code == some 0 && r.stdout != ""

/-- `result.stdout if _tool_ok(result) else ""` over an optional result
(`r0_results.get(name)`). -/
def okStdout : Option ToolResult → String
  | none => ""
  | some r => if toolOkB r then r.stdout else ""

/-- `_round_tool_statuses`: the per-participant outcome map persisted
into the checkpoint after a round: `timed_out` when the timeout flag is
set, else `ok` for exit code 0, else `failed`. -/
def roundToolStatuses (rs : List (String × ToolResult)) : List (String × ToolVal) :=
  rs.map fun p =>
    (p.1, .s (if p.2.timed_out then "timed_out"
              else if p.2.exit_code == some 0 then "ok" else "failed"))

/-- The prescribed outcomes of the five possible external invocations
of one pipeline execution (round 0 fans out to both roles; rounds 1-3
are single invocations).  This plays the role of the agent transport:
the orchestrator never invokes the same site twice in one execution. -/
structure Agents where
  r0Claude : ToolResult
  r0Codex : ToolResult
  r1Claude : ToolResult
  r2Codex : ToolResult
  r3Claude : ToolResult

/-- The saved on-disk round artifacts available to `_load_round_output`
on resume: `art round file` is the contents of
`run_dir/rounds/<round>/<file>`, or `none` when the file is absent. -/
def Artifacts := String → String → Option String

/-- `_load_round_output`: round 0 stores one `<tool>_stdout.md` per
participant, later rounds a single `stdout.md`; a missing file reads as
the empty string. -/
def loadRoundOutput (art : Artifacts) (round tool : String) : String :=
  let file := if round == "0_generate" then tool ++ "_stdout.md" else "stdout.md"
  (art round file).getD ""

/-- Membership of the two roles in the loaded tool configuration
(`config.tools`). -/
structure PipeCfg where
  cfgClaude : Bool
  cfgCodex : Bool

/-- The fields of `RunOptions` the orchestration logic branches on. -/
structure POpts where
  mode : String
  task : String
  tools : List String
  noSave : Bool
  dryRun : Bool
  redactPaths : Bool

/-- The sentinel round-0 substitute when codex produced nothing. -/
def codexUnavailableR0 : String :=
  "(Codex was unavailable; no alternative analysis provided.)"

/-- The round-2 effective output when the codex critique invocation
failed. -/
def codexCritiqueUnavailable : String :=
  "(Codex critique unavailable.)"

/-- The round-2 effective output when the critique round is skipped
because codex is unavailable. -/
def codexNotAvailable : String :=
  "(Codex was not available for critique.)"

/-- `_run_rounds._should_run`: on a fresh run every round executes; on
resume, rounds strictly before the resume point are skipped unless they
are retry targets. -/
def shouldRunRound (resumeFrom : Option String) (retryFailed : List String)
    (round : String) : Bool :=
  match resumeFrom with
  | none => true
  | some rf =>
      let ridx : Int := if ROUND_NAMES.contains round then ROUND_NAMES.indexOf round else -1
      let sidx : Int := if ROUND_NAMES.contains rf then ROUND_NAMES.indexOf rf else 0
      if ridx < sidx then retryFailed.contains round else true

/-- Threaded bookkeeping of one `_run_rounds` execution: the in-memory
checkpoint document, the ordered persisted writes, and the ordered
external invocations, each tagged `(round, participant)`. -/
structure PState where
  doc : StateDoc
  writes : List StateDoc
  calls : List (String × String)
deriving DecidableEq, Repr

/-- One `update_round` call site: mutates the in-memory document and
persists it, unless the run is in `no_save` mode. -/
def pUpdate (noSave : Bool) (ps : PState) (round : String) (st : RoundStatus)
    (ts : Option (List (String × ToolVal))) : PState :=
  if noSave then ps
  else
    let d := ps.doc.updateRound round st ts
    { ps with doc := d, writes := ps.writes ++ [d] }

/-- Record one external agent invocation. -/
def pCall (ps : PState) (round tool : String) : PState :=
  { ps with calls := ps.calls ++ [(round, tool)] }

/-- Everything observable about one `_run_rounds` execution: the
returned final text (`none` encodes Python's abort return `None`), the
threaded bookkeeping, the text handed to `_save_single_tool_final` when
the single-tool fallback fired, and the effective outputs the rounds
computed (`none` when execution returned before the value was bound). -/
structure RoundsOut where
  final : Option String
  ps : PState
  singleFinal : Option String
  r0ClaudeEff : Option String
  r0CodexEff : Option String
  r1AltInput : Option String
  improved : Option String
  critique : Option String
deriving DecidableEq, Repr

/-- Rounds 1-3 of `_run_rounds`, entered with the effective round-0
outputs (`claude_r0_out`, `codex_r0_out`) in hand: codex availability
is derived by the source's sentinel-string comparison, the single-tool
fallback may end the run, and each remaining round either executes or
reloads its saved output. -/
def runRounds123 (cfg : PipeCfg) (noSave hasCodex : Bool) (agents : Agents)
    (art : Artifacts) (sr : String → Bool) (ps0 : PState)
    (claudeR0Out codexR0Out : String) : RoundsOut :=
  let codexAvailable := codexR0Out != "" && codexR0Out != codexUnavailableR0
  if claudeR0Out == "" && codexR0Out != "" then
    -- Single-tool fallback: codex's round-0 output becomes the final
    -- result; `_save_single_tool_final` writes it and `_run_rounds`
    -- returns it without touching rounds 1-3.
    { final := some codexR0Out, ps := ps0, singleFinal := some codexR0Out
      r0ClaudeEff := some claudeR0Out, r0CodexEff := some codexR0Out
      r1AltInput := none, improved := none, critique := none }
  else
    let codexR0In := if claudeR0Out != "" && codexR0Out == "" then codexUnavailableR0
                     else codexR0Out
    -- Round 1: claude improves.
    let step1 : PState × String :=
      if sr "1_claude_improve" then
        let psa := pUpdate noSave ps0 "1_claude_improve" .running none
        let psb := pCall psa "1_claude_improve" "claude"
        let r := agents.r1Claude
        if toolOkB r then
          (pUpdate noSave psb "1_claude_improve" .ok (some [("claude", .s "ok")]), r.stdout)
        else
          (pUpdate noSave psb "1_claude_improve" .failed (some [("claude", .s "failed")]),
           claudeR0Out)
      else
        let l := loadRoundOutput art "1_claude_improve" "claude"
        (ps0, if l == "" then claudeR0Out else l)
    let ps1 := step1.1
    let improved := step1.2
    -- Round 2: codex critiques, only when codex is available.
    let step2 : PState × String :=
      if hasCodex && codexAvailable && cfg.cfgCodex then
        if sr "2_codex_critique" then
          let psa := pUpdate noSave ps1 "2_codex_critique" .running none
          let psb := pCall psa "2_codex_critique" "codex"
          let r := agents.r2Codex
          if toolOkB r then
            (pUpdate noSave psb "2_codex_critique" .ok (some [("codex", .s "ok")]), r.stdout)
          else
            (pUpdate noSave psb "2_codex_critique" .failed (some [("codex", .s "failed")]),
             codexCritiqueUnavailable)
        else
          let l := loadRoundOutput art "2_codex_critique" "codex"
          (ps1, if l == "" then codexCritiqueUnavailable else l)
      else
        (pUpdate noSave ps1 "2_codex_critique" .skipped none, codexNotAvailable)
    let ps2 := step2.1
    let critique := step2.2
    -- Round 3: claude finalizes.
    let step3 : PState × String :=
      if sr "3_claude_finalize" then
        let psa := pUpdate noSave ps2 "3_claude_finalize" .running none
        let psb := pCall psa "3_claude_finalize" "claude"
        let r := agents.r3Claude
        if toolOkB r then
          (pUpdate noSave psb "3_claude_finalize" .ok (some [("claude", .s "ok")]), r.stdout)
        else
          (pUpdate noSave psb "3_claude_finalize" .failed (some [("claude", .s "failed")]),
           improved)
      else
        let l := loadRoundOutput art "3_claude_finalize" "claude"
        (ps2, if l == "" then improved else l)
    { final := some step3.2, ps := step3.1, singleFinal := none
      r0ClaudeEff := some claudeR0Out, r0CodexEff := some codexR0Out
      r1AltInput := some codexR0In, improved := some improved, critique := some critique }

/-- `_run_rounds`: round 0 (parallel generation with the abort check),
then rounds 1-3.  `hasClaude`/`hasCodex` are the caller's
`has_claude`/`has_codex`; invocation additionally requires the role to
be in `config.tools` (the `r0_configs` filter). -/
def runRoundsFull (cfg : PipeCfg) (opts : POpts) (agents : Agents) (art : Artifacts)
    (state0 : StateDoc) (hasClaude hasCodex : Bool)
    (resumeFrom : Option String) (retryFailed : List String) : RoundsOut :=
  let noSave := opts.noSave
  let sr := shouldRunRound resumeFrom retryFailed
  let ps0 : PState := { doc := state0, writes := [], calls := [] }
  if opts.dryRun then
    { final := none, ps := ps0, singleFinal := none, r0ClaudeEff := none
      r0CodexEff := none, r1AltInput := none, improved := none, critique := none }
  else if sr "0_generate" then
    let psa := pUpdate noSave ps0 "0_generate" .running none
    let claudeInvoked := hasClaude && cfg.cfgClaude
    let codexInvoked := hasCodex && cfg.cfgCodex
    let psb := if claudeInvoked then pCall psa "0_generate" "claude" else psa
    let psc := if codexInvoked then pCall psb "0_generate" "codex" else psb
    let r0Results : List (String × ToolResult) :=
      (if claudeInvoked then [("claude", agents.r0Claude)] else []) ++
      (if codexInvoked then [("codex", agents.r0Codex)] else [])
    let claudeR0 : Option ToolResult := if claudeInvoked then some agents.r0Claude else none
    let codexR0 : Option ToolResult := if codexInvoked then some agents.r0Codex else none
    let cOut := okStdout claudeR0
    let xOut := okStdout codexR0
    if cOut == "" && xOut == "" then
      -- Abort: both tools failed in round 0.
      let psd := pUpdate noSave psc "0_generate" .failed (some (roundToolStatuses r0Results))
      { final := none, ps := psd, singleFinal := none, r0ClaudeEff := some cOut
        r0CodexEff := some xOut, r1AltInput := none, improved := none, critique := none }
    else
      let psd := pUpdate noSave psc "0_generate" .ok (some (roundToolStatuses r0Results))
      runRounds123 cfg noSave hasCodex agents art sr psd cOut xOut
  else
    -- Resume skip: reconstruct the round-0 outputs from saved artifacts.
    let cOut := loadRoundOutput art "0_generate" "claude"
    let xOut := loadRoundOutput art "0_generate" "codex"
    runRounds123 cfg noSave hasCodex agents art sr ps0 cOut xOut

/-- Everything observable about one `run_pipeline`/`resume_pipeline`
execution: the final text saved to `final/final.md` by the outer
`save_final` (if reached), the finishing status passed to
`mark_finished` (if called), the final in-memory document, all
persisted writes in order, and the inner `_run_rounds` observables. -/
structure PipelineOut where
  finalSaved : Option String
  overallStatus : Option String
  doc : StateDoc
  writes : List StateDoc
  calls : List (String × String)
  singleFinal : Option String
  r0ClaudeEff : Option String
  r0CodexEff : Option String
  improved : Option String
  critique : Option String
deriving DecidableEq, Repr

/-- Placeholder for Python's `state = {}` in `no_save` mode (never
persisted and never read on that path). -/
def emptyDoc : StateDoc :=
  { version := "", mode := "", task_preview := "", tools := [], started_at := ""
    finished_at := none, status := "", rounds := [] }

/-- `run_pipeline` (fresh run): initialise the checkpoint, check that
at least one role is usable, execute the rounds, and finalise.
`redactFn` stands for `redact_abs_paths`; `nowStart`/`nowFin` for the
timestamps taken at start and finish. -/
def runPipeline (cfg : PipeCfg) (opts : POpts) (agents : Agents) (art : Artifacts)
    (redactFn : String → String) (nowStart nowFin : String) : PipelineOut :=
  let noSave := opts.noSave
  let st0 := if noSave then emptyDoc else initState opts.mode opts.task opts.tools nowStart
  let writes0 : List StateDoc := if noSave then [] else [st0]
  let hasClaude := opts.tools.contains "claude" && cfg.cfgClaude
  let hasCodex := opts.tools.contains "codex" && cfg.cfgCodex
  if !hasClaude && !hasCodex then
    let d := if noSave then st0 else st0.markFinished "failed" nowFin
    { finalSaved := none
      overallStatus := if noSave then none else some "failed"
      doc := d
      writes := writes0 ++ (if noSave then [] else [d])
      calls := [], singleFinal := none, r0ClaudeEff := none, r0CodexEff := none
      improved := none, critique := none }
  else
    let ro := runRoundsFull cfg opts agents art st0 hasClaude hasCodex none []
    match ro.final with
    | none =>
        let d := if noSave then ro.ps.doc else ro.ps.doc.markFinished "failed" nowFin
        { finalSaved := none
          overallStatus := if noSave then none else some "failed"
          doc := d
          writes := writes0 ++ ro.ps.writes ++ (if noSave then [] else [d])
          calls := ro.ps.calls, singleFinal := ro.singleFinal
          r0ClaudeEff := ro.r0ClaudeEff, r0CodexEff := ro.r0CodexEff
          improved := ro.improved, critique := ro.critique }
    | some out =>
        let fo := if opts.redactPaths then redactFn out else out
        let d := if noSave then ro.ps.doc else ro.ps.doc.markFinished "completed" nowFin
        { finalSaved := some fo
          overallStatus := if noSave then none else some "completed"
          doc := d
          writes := writes0 ++ ro.ps.writes ++ (if noSave then [] else [d])
          calls := ro.ps.calls, singleFinal := ro.singleFinal
          r0ClaudeEff := ro.r0ClaudeEff, r0CodexEff := ro.r0CodexEff
          improved := ro.improved, critique := ro.critique }

/-- Errors `resume_pipeline` raises before any round executes. -/
inductive ResumeErr where
  | missingTask
deriving DecidableEq, Repr

/-- `resume_pipeline`, entered with the already-loaded checkpoint
document: reload the task, determine the resume point, mark the
document running again in memory, execute the remaining rounds, and
finalise.  The resumed `RunOptions` leave `no_save`, `dry_run` and
`redact_paths` at their defaults (all false). -/
def resumePipeline (cfg : PipeCfg) (doc : StateDoc) (taskFile : Option String)
    (agents : Agents) (art : Artifacts) (retryFlag : Bool) (nowFin : String) :
    Except ResumeErr PipelineOut :=
  match taskFile with
  | none => .error .missingTask
  | some task =>
    let hasClaude := doc.tools.contains "claude" && cfg.cfgClaude
    let hasCodex := doc.tools.contains "codex" && cfg.cfgCodex
    let unchanged : PipelineOut :=
      { finalSaved := none, overallStatus := none, doc := doc, writes := []
        calls := [], singleFinal := none, r0ClaudeEff := none, r0CodexEff := none
        improved := none, critique := none }
    if !hasClaude && !hasCodex then .ok unchanged
    else
      match getResumePoint doc with
      | none => .ok unchanged
      | some rf =>
        let failedR := if retryFlag then getFailedRounds doc else []
        let doc1 := { doc with status := "running", finished_at := none }
        let opts : POpts :=
          { mode := doc.mode, task := task, tools := doc.tools
            noSave := false, dryRun := false, redactPaths := false }
        let ro := runRoundsFull cfg opts agents art doc1 hasClaude hasCodex (some rf) failedR
        match ro.final with
        | none =>
            let d := ro.ps.doc.markFinished "failed" nowFin
            .ok { finalSaved := none, overallStatus := some "failed", doc := d
                  writes := ro.ps.writes ++ [d], calls := ro.ps.calls
                  singleFinal := ro.singleFinal, r0ClaudeEff := ro.r0ClaudeEff
                  r0CodexEff := ro.r0CodexEff, improved := ro.improved
                  critique := ro.critique }
        | some out =>
            let d := ro.ps.doc.markFinished "completed" nowFin
            .ok { finalSaved := some out, overallStatus := some "completed", doc := d
                  writes := ro.ps.writes ++ [d], calls := ro.ps.calls
                  singleFinal := ro.singleFinal, r0ClaudeEff := ro.r0ClaudeEff
                  r0CodexEff := ro.r0CodexEff, improved := ro.improved
                  critique := ro.critique }

/-! ### Persistence: the JSON document, `_write` and `load_state`

The checkpoint document travels to disk as JSON text via
`json.dumps`/`json.loads`.  The embedding keeps the file contents at
the JSON-value level (`Json`): the Python standard library's
text-encoding round trip is not this repository's code.  A file that
was interrupted mid-write holds bytes that are not a JSON document at
all; that state is `FileData.torn`, on which `json.loads` raises. -/

/-- The JSON values `state.json` can hold. -/
inductive Json where
  | null
  | str (s : String)
  | arr (xs : List Json)
  | obj (kvs : List (String × Json))

/-- Encode one `tools`-map value. -/
def ToolVal.toJson : ToolVal → Json
  | .s v => .str v
  | .m kvs => .obj (kvs.map fun p => (p.1, .str p.2))

/-- Decode a string-to-string JSON object (the `chosen_candidates`
shape). -/
def decodeStrMap : List (String × Json) → Option (List (String × String))
  | [] => some []
  | (k, .str v) :: rest => (decodeStrMap rest).map fun l => (k, v) :: l
  | _ => none

/-- Decode one `tools`-map value. -/
def ToolVal.fromJson : Json → Option ToolVal
  | .str v => some (.s v)
  | .obj kvs => (decodeStrMap kvs).map ToolVal.m
  | _ => none

/-- Encode one round's dict. -/
def RoundState.toJson (rs : RoundState) : Json :=
  .obj [("status", .str rs.status),
        ("tools", .obj (rs.tools.map fun p => (p.1, p.2.toJson)))]

/-- Decode the values of a round's `tools` object. -/
def decodeToolVals : List (String × Json) → Option (List (String × ToolVal))
  | [] => some []
  | (k, v) :: rest => do
      let tv ← ToolVal.fromJson v
      let l ← decodeToolVals rest
      some ((k, tv) :: l)

/-- Decode one round's dict. -/
def RoundState.fromJson : Json → Option RoundState
  | .obj [("status", .str st), ("tools", .obj kvs)] =>
      (decodeToolVals kvs).map fun l => { status := st, tools := l }
  | _ => none

/-- Decode the `rounds` object. -/
def decodeRounds : List (String × Json) → Option (List (String × RoundState))
  | [] => some []
  | (k, v) :: rest => do
      let rs ← RoundState.fromJson v
      let l ← decodeRounds rest
      some ((k, rs) :: l)

/-- Decode a JSON string array (the `tools` role list). -/
def decodeStrList : List Json → Option (List String)
  | [] => some []
  | .str s :: rest => (decodeStrList rest).map fun l => s :: l
  | _ => none

/-- Encode the full checkpoint document into its persisted JSON shape. -/
def stateToJson (d : StateDoc) : Json :=
  .obj [("version", .str d.version),
        ("mode", .str d.mode),
        ("task_preview", .str d.task_preview),
        ("tools", .arr (d.tools.map Json.str)),
        ("started_at", .str d.started_at),
        ("finished_at", match d.finished_at with | none => .null | some t => .str t),
        ("status", .str d.status),
        ("rounds", .obj (d.rounds.map fun p => (p.1, p.2.toJson)))]

/-- Decode a persisted checkpoint document. -/
def stateFromJson : Json → Option StateDoc
  | .obj [("version", .str v), ("mode", .str m), ("task_preview", .str tp),
          ("tools", .arr ts), ("started_at", .str sa), ("finished_at", fin),
          ("status", .str st), ("rounds", .obj rs)] => do
      let tools ← decodeStrList ts
      let fin' ← match fin with
        | .null => some none
        | .str t => some (some t)
        | _ => none
      let rounds ← decodeRounds rs
      some { version := v, mode := m, task_preview := tp, tools := tools
             started_at := sa, finished_at := fin', status := st, rounds := rounds }
  | _ => none

/-- Contents of one file slot: a parseable JSON document, or bytes that
`json.loads` rejects (a partially-written file). -/
inductive FileData where
  | doc (j : Json)
  | torn

/-- The two file-system slots `_write` touches: `state.json` itself and
the temporary `state.json.tmp`. -/
structure FS where
  main : Option FileData
  tmp : Option FileData

/-- How `load_state` can fail: the file is absent (`FileNotFoundError`)
or its contents are not valid JSON (`json.JSONDecodeError` from
`json.loads`). -/
inductive LoadErr where
  | notFound
  | jsonDecode
deriving DecidableEq, Repr

/-- `load_state`: read and parse `state.json`, failing loudly when the
file is absent or holds corrupt JSON. -/
def load_state (fs : FS) : Except LoadErr Json :=
  match fs.main with
  | none => .error .notFound
  | some .torn => .error .jsonDecode
  | some (.doc j) => .ok j

/-- Every intermediate file-system state of one `_write(run_dir, state)`
call, in order: before anything happened; interrupted while the
temporary file is half-written; the temporary file complete; after the
atomic rename.  The rename is the only step that touches `state.json`. -/
def writeStates (fs : FS) (j : Json) : List FS :=
  [fs,
   { fs with tmp := some .torn },
   { fs with tmp := some (.doc j) },
   { main := some (.doc j), tmp := none }]

/-- `_write` run to completion: the document sits in `state.json` and
the temporary file is gone. -/
def writeState (_fs : FS) (j : Json) : FS :=
  { main := some (.doc j), tmp := none }

/-- The checkpoint documents `init_state`, `update_round` and
`mark_finished` can produce: the initial document followed by any
sequence of round updates and finish marks. -/
inductive ReachableDoc : StateDoc → Prop where
  | init (mode task : String) (tools : List String) (now : String) :
      ReachableDoc (initState mode task tools now)
  | update (d : StateDoc) (round : String) (st : RoundStatus)
      (ts : Option (List (String × ToolVal))) :
      ReachableDoc d → ReachableDoc (d.updateRound round st ts)
  | finish (d : StateDoc) (status now : String) :
      ReachableDoc d → ReachableDoc (d.markFinished status now)

/-! ### Candidate selection

The repository's tests (`tests/test_multi_candidate.py`) exercise
`council.pipeline._pick_best_candidate`, but the multi-candidate
version of `pipeline.py` that defines it is not part of the sources
provided; only its tests and the specification describe it. -/

/-- Lower-case letters of the keyword `confidence`. -/
def confKey : List Char := ['c', 'o', 'n', 'f', 'i', 'd', 'e', 'n', 'c', 'e']

/-- Case-insensitive prefix test for the keyword. -/
def startsWithCI : List Char → List Char → Bool
  | [], _ => true
  | _ :: _, [] => false
  | k :: ks, c :: cs => k == c.toLower && startsWithCI ks cs

/-- A separator admissible between the keyword and the score:
`:`, `=` or whitespace. -/
def isSepChar (c : Char) : Bool :=
  c == ':' || c == '=' || c == ' ' || c == '\t' || c == '\n' || c == '\r'

/-- Numeric value of a digit string. -/
def digitsToNat (ds : List Char) : Nat :=
  ds.foldl (fun a c => a * 10 + (c.toNat - 48)) 0

/-- After the keyword: at least one separator character, then a 1-3
digit integer (the first up-to-three digits of the following run). -/
def parseAfterKey (cs : List Char) : Option Nat :=
  let seps := cs.takeWhile isSepChar
  let rest := cs.dropWhile isSepChar
  if seps.isEmpty then none
  else
    let ds := (rest.takeWhile Char.isDigit).take 3
    if ds.isEmpty then none else some (digitsToNat ds)

/-- Left-to-right scan for the first full confidence-score match. -/
def scanConf : List Char → Option Nat
  | [] => none
  | c :: cs =>
      if startsWithCI confKey (c :: cs) then
        match parseAfterKey ((c :: cs).drop confKey.length) with
        | some n => some n
        | none => scanConf cs
      else scanConf cs

/-- Modelled from the spec: the confidence-score extraction of
`_pick_best_candidate` (absent from the provided sources) — scan the
candidate text for a case-insensitive `confidence`, followed by
`:`/`=`/whitespace, then a 1-3 digit integer; first match wins, and a
missing or malformed score is "no score" rather than an error. -/
def extractConfidence (s : String) : Option Nat :=
  scanConf s.data

/-- Whether a `(name, text)` candidate carries a parsed score. -/
def hasScore (p : String × String) : Bool :=
  (extractConfidence p.2).isSome

/-- The parsed score of a candidate, defaulting to 0. -/
def scoreOf (p : String × String) : Nat :=
  (extractConfidence p.2).getD 0

/-- First-maximum selection: fold that replaces the champion only on a
strictly greater key, so ties keep the earlier candidate. -/
def pickFold (f : α → Nat) (x : α) (xs : List α) : α :=
  xs.foldl (fun b a => if f a > f b then a else b) x

/-- Modelled from the spec: `_pick_best_candidate` (absent from the
provided sources) — a single candidate is returned unchanged; scored
candidates outrank unscored ones; among the scored, the highest score
wins with input-order tie-break; with no scores at all, the longest
text wins with input-order tie-break. -/
def pick_best : List (String × String) → Option (String × String)
  | [] => none
  | [c] => some c
  | c :: cs =>
      let cands := c :: cs
      match cands.filter hasScore with
      | [] => some (pickFold (fun p => p.2.length) c cs)
      | s :: ss => some (pickFold scoreOf s ss)

/-! ### Shared lemmas about the checkpoint store -/

theorem lookup_condUpdate_ne (round r : String) (g : RoundState → RoundState)
    (h : r ≠ round) (l : List (String × RoundState)) :
    (l.map fun p => if p.1 == round then (p.1, g p.2) else p).lookup r = l.lookup r := by
  induction l with
  | nil => rfl
  | cons p rest ih =>
    obtain ⟨k, v⟩ := p
    simp only [List.map_cons]
    split
    next hkr =>
      have hk : k = round := by simpa using hkr
      subst hk
      have hr : (r == k) = false := by simp [h]
      simp only [List.lookup, hr]
      exact ih
    next hkr =>
      cases hr : r == k with
      | true => simp only [List.lookup, hr]
      | false =>
        simp only [List.lookup, hr]
        exact ih

theorem lookup_condUpdate_self (round : String) (g : RoundState → RoundState)
    (l : List (String × RoundState)) :
    (l.map fun p => if p.1 == round then (p.1, g p.2) else p).lookup round
      = (l.lookup round).map g := by
  induction l with
  | nil => rfl
  | cons p rest ih =>
    obtain ⟨k, v⟩ := p
    simp only [List.map_cons]
    split
    next hkr =>
      have hk : k = round := by simpa using hkr
      subst hk
      simp only [List.lookup, beq_self_eq_true]
      rfl
    next hkr =>
      have hk : k ≠ round := by simpa using hkr
      have hr : (round == k) = false := by simp [Ne.symm hk]
      simp only [List.lookup, hr]
      exact ih

theorem lookup_updateRound_ne (d : StateDoc) (round : String) (st : RoundStatus)
    (ts : Option (List (String × ToolVal))) (r : String) (h : r ≠ round) :
    (d.updateRound round st ts).rounds.lookup r = d.rounds.lookup r :=
  lookup_condUpdate_ne round r (fun rs => updateRoundState rs st ts) h d.rounds

theorem lookup_updateRound_self (d : StateDoc) (round : String) (st : RoundStatus)
    (ts : Option (List (String × ToolVal))) :
    (d.updateRound round st ts).rounds.lookup round
      = (d.rounds.lookup round).map (fun rs => updateRoundState rs st ts) :=
  lookup_condUpdate_self round (fun rs => updateRoundState rs st ts) d.rounds

theorem roundStatus_updateRound_ne (d : StateDoc) (round : String) (st : RoundStatus)
    (ts : Option (List (String × ToolVal))) (r : String) (h : r ≠ round) :
    (d.updateRound round st ts).roundStatus r = d.roundStatus r := by
  unfold StateDoc.roundStatus
  rw [lookup_updateRound_ne d round st ts r h]

theorem roundStatus_markFinished (d : StateDoc) (s now r : String) :
    (d.markFinished s now).roundStatus r = d.roundStatus r := rfl

theorem updateRoundState_status (rs : RoundState) (st : RoundStatus)
    (ts : Option (List (String × ToolVal))) :
    (updateRoundState rs st ts).status = st.value := by
  unfold updateRoundState
  match ts with
  | none => rfl
  | some [] => rfl
  | some (x :: l) => rfl

theorem updateRoundState_tools_trivial (rs : RoundState) (st : RoundStatus)
    (ts : Option (List (String × ToolVal))) (h : ts = none ∨ ts = some []) :
    (updateRoundState rs st ts).tools = rs.tools := by
  rcases h with h | h <;> subst h <;> rfl

/-- **C10.** `update_round(run_dir, state, round_name, status, tool_statuses)`
mutates only the rounds entry for `round_name`: every top-level field
and every other round's entry are unchanged, the named round's status
becomes the given status string, and when `tool_statuses` is `None` or
an empty mapping the named round's previously recorded tools map is
preserved. -/
theorem update_round_frame (d : StateDoc) (round : String) (st : RoundStatus)
    (ts : Option (List (String × ToolVal)))
    (hmem : (d.rounds.lookup round).isSome = true) :
    (d.updateRound round st ts).version = d.version ∧
    (d.updateRound round st ts).mode = d.mode ∧
    (d.updateRound round st ts).task_preview = d.task_preview ∧
    (d.updateRound round st ts).tools = d.tools ∧
    (d.updateRound round st ts).started_at = d.started_at ∧
    (d.updateRound round st ts).finished_at = d.finished_at ∧
    (d.updateRound round st ts).status = d.status ∧
    (d.updateRound round st ts).rounds.map Prod.fst = d.rounds.map Prod.fst ∧
    (∀ r : String, r ≠ round →
      (d.updateRound round st ts).rounds.lookup r = d.rounds.lookup r) ∧
    (d.updateRound round st ts).roundStatus round = some st.value ∧
    ((ts = none ∨ ts = some []) →
      ((d.updateRound round st ts).rounds.lookup round).map RoundState.tools
        = (d.rounds.lookup round).map RoundState.tools) := by
  obtain ⟨rs, hrs⟩ := Option.isSome_iff_exists.mp hmem
  refine ⟨rfl, rfl, rfl, rfl, rfl, rfl, rfl, ?_, ?_, ?_, ?_⟩
  · unfold StateDoc.updateRound
    simp only [List.map_map]
    congr 1
    funext p
    by_cases hp : p.1 = round <;> simp [hp]
  · exact fun r hr => lookup_updateRound_ne d round st ts r hr
  · unfold StateDoc.roundStatus
    rw [lookup_updateRound_self, hrs]
    simp [updateRoundState_status]
  · intro h
    rw [lookup_updateRound_self, hrs]
    simp [updateRoundState_tools_trivial rs st ts h]

/-- Witness for C10 at a concrete document. -/
theorem update_round_frame_witness :
    ((((initState "fix" "Fix bug" ["claude", "codex"] "T0").rounds.lookup
        "1_claude_improve").isSome = true) ∧
      ((initState "fix" "Fix bug" ["claude", "codex"] "T0").updateRound
        "1_claude_improve" .ok none).roundStatus "1_claude_improve" = some "ok") := by
  have h : ((initState "fix" "Fix bug" ["claude", "codex"] "T0").rounds.lookup
      "1_claude_improve").isSome = true := by decide
  exact ⟨h, (update_round_frame (initState "fix" "Fix bug" ["claude", "codex"] "T0")
    "1_claude_improve" .ok none h).2.2.2.2.2.2.2.2.2.1⟩

/-! ### JSON round trip -/

theorem decodeStrMap_encode (l : List (String × String)) :
    decodeStrMap (l.map fun p => (p.1, Json.str p.2)) = some l := by
  induction l with
  | nil => rfl
  | cons p rest ih => obtain ⟨k, v⟩ := p; simp [decodeStrMap, ih]

theorem toolVal_roundtrip (tv : ToolVal) : ToolVal.fromJson tv.toJson = some tv := by
  cases tv with
  | s v => rfl
  | m kvs => simp [ToolVal.toJson, ToolVal.fromJson, decodeStrMap_encode]

theorem decodeToolVals_encode (l : List (String × ToolVal)) :
    decodeToolVals (l.map fun p => (p.1, p.2.toJson)) = some l := by
  induction l with
  | nil => rfl
  | cons p rest ih =>
    obtain ⟨k, v⟩ := p
    simp [decodeToolVals, toolVal_roundtrip, ih]

theorem roundState_roundtrip (rs : RoundState) :
    RoundState.fromJson rs.toJson = some rs := by
  obtain ⟨st, tools⟩ := rs
  simp [RoundState.toJson, RoundState.fromJson, decodeToolVals_encode]

theorem decodeRounds_encode (l : List (String × RoundState)) :
    decodeRounds (l.map fun p => (p.1, p.2.toJson)) = some l := by
  induction l with
  | nil => rfl
  | cons p rest ih =>
    obtain ⟨k, v⟩ := p
    simp [decodeRounds, roundState_roundtrip, ih]

theorem decodeStrList_encode (l : List String) :
    decodeStrList (l.map Json.str) = some l := by
  induction l with
  | nil => rfl
  | cons s rest ih => simp [decodeStrList, ih]

theorem state_roundtrip (d : StateDoc) : stateFromJson (stateToJson d) = some d := by
  obtain ⟨v, m, tp, tools, sa, fin, st, rounds⟩ := d
  cases fin with
  | none =>
    simp [stateToJson, stateFromJson, decodeStrList_encode, decodeRounds_encode]
  | some t =>
    simp [stateToJson, stateFromJson, decodeStrList_encode, decodeRounds_encode]

/-- **C9.** Persisting any checkpoint document produced by `init_state`
and a sequence of `update_round`/`mark_finished` calls, then loading it
back, reproduces every field exactly — including the nested per-round
tools outcome maps (with any `chosen_candidates` entry). -/
theorem checkpoint_roundtrip (d : StateDoc) (_h : ReachableDoc d) (fs : FS) :
    load_state (writeState fs (stateToJson d)) = .ok (stateToJson d) ∧
    stateFromJson (stateToJson d) = some d :=
  ⟨rfl, state_roundtrip d⟩

/-- The document used by the C9 witness: an initial state with one
round update carrying a nested `chosen_candidates` map, then a finish
mark. -/
def roundtripWitnessDoc : StateDoc :=
  (((initState "fix" "Fix the login bug" ["claude", "codex"] "T0").updateRound
      "0_generate" .ok
      (some [("claude", .s "ok"), ("claude_2", .s "ok"), ("codex", .s "ok"),
             ("chosen_candidates", .m [("claude", "claude_2"), ("codex", "codex")])])).markFinished
    "completed" "T1")

/-- Witness for C9 at a concrete reachable document. -/
theorem checkpoint_roundtrip_witness :
    load_state (writeState { main := none, tmp := none } (stateToJson roundtripWitnessDoc))
        = .ok (stateToJson roundtripWitnessDoc) ∧
    stateFromJson (stateToJson roundtripWitnessDoc) = some roundtripWitnessDoc :=
  checkpoint_roundtrip roundtripWitnessDoc
    (ReachableDoc.finish _ _ _ (ReachableDoc.update _ _ _ _
      (ReachableDoc.init "fix" "Fix the login bug" ["claude", "codex"] "T0")))
    { main := none, tmp := none }

/-- **C5.** Every persistence of the checkpoint document writes the
full document to a temporary file and renames it over `state.json`: at
every intermediate point of the write — including an interruption that
leaves the temporary file half-written — a load observes either the
prior complete document or the new complete document, never a mix. -/
theorem atomic_write_property (fs : FS) (d : StateDoc) (old : Json)
    (h : fs.main = some (.doc old)) :
    ∀ fs' ∈ writeStates fs (stateToJson d),
      load_state fs' = .ok old ∨ load_state fs' = .ok (stateToJson d) := by
  intro fs' hmem
  simp only [writeStates, List.mem_cons, List.mem_singleton, List.not_mem_nil, or_false]
    at hmem
  rcases hmem with rfl | rfl | rfl | rfl
  · left; simp [load_state, h]
  · left; simp [load_state, h]
  · left; simp [load_state, h]
  · right; rfl

/-- The prior document, the new document and the starting file system
of the C5 witness. -/
def jOldW : Json := stateToJson (initState "fix" "t" ["claude"] "T0")

/-- The new document written by the C5 witness's update. -/
def jNewW : Json := stateToJson (initState "fix" "t" ["claude"] "T1")

/-- The starting file system of the C5 witness. -/
def fsOldW : FS := { main := some (.doc jOldW), tmp := none }

/-- Witness for C5: at each of the four concrete intermediate states of
the write, the load sees the old or the new complete document. -/
theorem atomic_write_property_witness :
    (load_state fsOldW = .ok jOldW ∨ load_state fsOldW = .ok jNewW) ∧
    (load_state { fsOldW with tmp := some .torn } = .ok jOldW ∨
      load_state { fsOldW with tmp := some .torn } = .ok jNewW) ∧
    (load_state { fsOldW with tmp := some (.doc jNewW) } = .ok jOldW ∨
      load_state { fsOldW with tmp := some (.doc jNewW) } = .ok jNewW) ∧
    (load_state { main := some (.doc jNewW), tmp := none } = .ok jOldW ∨
      load_state { main := some (.doc jNewW), tmp := none } = .ok jNewW) :=
  ⟨atomic_write_property fsOldW (initState "fix" "t" ["claude"] "T1") jOldW rfl
      fsOldW (by simp [writeStates]),
   atomic_write_property fsOldW (initState "fix" "t" ["claude"] "T1") jOldW rfl
      { fsOldW with tmp := some .torn } (by simp [writeStates]),
   atomic_write_property fsOldW (initState "fix" "t" ["claude"] "T1") jOldW rfl
      { fsOldW with tmp := some (.doc jNewW) } (by simp [writeStates, jNewW]),
   atomic_write_property fsOldW (initState "fix" "t" ["claude"] "T1") jOldW rfl
      { main := some (.doc jNewW), tmp := none } (by simp [writeStates, jNewW])⟩

/-! ### Concrete fixtures shared by counterexamples and witnesses -/

/-- A successful tool invocation with the given stdout. -/
def okTR (s : String) : ToolResult :=
  { exit_code := some 0, stdout := s, stderr := "", timed_out := false }

/-- A failed tool invocation (non-zero exit, empty stdout). -/
def failTR : ToolResult :=
  { exit_code := some 1, stdout := "", stderr := "error", timed_out := false }

/-- Both roles present in the loaded configuration. -/
def cfgBoth : PipeCfg := { cfgClaude := true, cfgCodex := true }

/-- Fresh-run options: both tools requested, saving enabled. -/
def optsFresh : POpts :=
  { mode := "fix", task := "Fix the login bug", tools := ["claude", "codex"]
    noSave := false, dryRun := false, redactPaths := false }

/-- All five invocation sites succeed with distinct outputs. -/
def agentsAllOk : Agents :=
  { r0Claude := okTR "Claude R0 analysis", r0Codex := okTR "Codex R0 analysis"
    r1Claude := okTR "Claude improved analysis", r2Codex := okTR "Codex critique"
    r3Claude := okTR "Final answer" }

/-- An empty artifact store (no saved round outputs). -/
def artEmpty : Artifacts := fun _ _ => none

/-! ### C8: malformed persisted state -/

/-- A syntactically valid checkpoint document whose rounds mapping is
missing the `1_claude_improve` key. -/
def docC8 : StateDoc :=
  { version := "1.0", mode := "fix", task_preview := "Fix the login bug"
    tools := ["claude", "codex"], started_at := "T0", finished_at := none
    status := "running"
    rounds := [("0_generate",
                  { status := "ok", tools := [("claude", .s "failed"), ("codex", .s "ok")] }),
               ("2_codex_critique", { status := "ok", tools := [("codex", .s "ok")] }),
               ("3_claude_finalize", { status := "ok", tools := [("claude", .s "ok")] })] }

/-- A file system holding `docC8` as a well-formed `state.json`. -/
def fsC8 : FS := { main := some (.doc (stateToJson docC8)), tmp := none }

/-- Saved artifacts for the C8 run: codex's round-0 stdout exists, the
claude one does not. -/
def artC8 : Artifacts := fun r f =>
  if r == "0_generate" && f == "codex_stdout.md" then some "Codex R0 analysis" else none

/-- **C8 counterexample.** A persisted document whose rounds mapping is
missing the `1_claude_improve` key does NOT fail at load time: it loads
successfully, and `resume_pipeline` proceeds on it — here all the way
to a `completed` finalisation that overwrites the final artifact —
rather than failing loudly. -/
theorem malformed_state_load_cex :
    docC8.rounds.lookup "1_claude_improve" = none ∧
    load_state fsC8 = .ok (stateToJson docC8) ∧
    stateFromJson (stateToJson docC8) = some docC8 ∧
    (resumePipeline cfgBoth docC8 (some "Fix the login bug") agentsAllOk artC8 false
        "T1").toOption.map (fun o => (o.overallStatus, o.finalSaved, o.calls))
      = some (some "completed", some "Codex R0 analysis", []) := by
  refine ⟨by rfl, rfl, state_roundtrip docC8, by rfl⟩

/-- **C8 (amended).** `load_state` fails loudly when `state.json` is
absent (`FileNotFoundError`) or holds corrupt JSON (`json.loads`
raises); but a syntactically valid document with missing round keys is
not rejected at load time: it loads, and resume treats each missing
round as not-`ok`, making it the resume point and proceeding, instead
of failing. -/
theorem malformed_state_load (fs1 fs2 : FS) (d : StateDoc)
    (h1 : fs1.main = none) (h2 : fs2.main = some .torn)
    (h0 : d.roundStatus "0_generate" = some "ok")
    (hm : d.rounds.lookup "1_claude_improve" = none) :
    load_state fs1 = .error .notFound ∧
    load_state fs2 = .error .jsonDecode ∧
    getResumePoint d = some "1_claude_improve" := by
  refine ⟨?_, ?_, ?_⟩
  · simp [load_state, h1]
  · simp [load_state, h2]
  · have hm' : d.roundStatus "1_claude_improve" = none := by
      simp [StateDoc.roundStatus, hm]
    simp [getResumePoint, ROUND_NAMES, List.find?, h0, hm']

/-- Witness for C8's amended statement at concrete inputs. -/
theorem malformed_state_load_witness :
    load_state { main := none, tmp := none } = .error .notFound ∧
    load_state { main := some .torn, tmp := none } = .error .jsonDecode ∧
    getResumePoint docC8 = some "1_claude_improve" :=
  malformed_state_load { main := none, tmp := none } { main := some .torn, tmp := none }
    docC8 rfl rfl (by rfl) (by rfl)

/-! ### C6: idempotent no-op resume -/

/-- **C6.** Resuming a run whose persisted checkpoint shows all four
rounds `ok` performs zero external agent invocations and returns
without modifying the persisted checkpoint document (no write happens,
so in particular `finished_at` is unchanged). -/
theorem resume_noop (cfg : PipeCfg) (d : StateDoc) (task : String)
    (agents : Agents) (art : Artifacts) (retry : Bool) (now : String)
    (h0 : d.roundStatus "0_generate" = some "ok")
    (h1 : d.roundStatus "1_claude_improve" = some "ok")
    (h2 : d.roundStatus "2_codex_critique" = some "ok")
    (h3 : d.roundStatus "3_claude_finalize" = some "ok") :
    resumePipeline cfg d (some task) agents art retry now =
      .ok { finalSaved := none, overallStatus := none, doc := d, writes := []
            calls := [], singleFinal := none, r0ClaudeEff := none, r0CodexEff := none
            improved := none, critique := none } := by
  have hrp : getResumePoint d = none := by
    simp [getResumePoint, ROUND_NAMES, List.find?, h0, h1, h2, h3]
  unfold resumePipeline
  simp only [hrp]
  split <;> rfl

/-- The all-`ok` checkpoint used by the C6 witness. -/
def docAllOk : StateDoc :=
  ((((initState "fix" "Fix the login bug" ["claude", "codex"] "T0").updateRound
      "0_generate" .ok (some [("claude", .s "ok"), ("codex", .s "ok")])).updateRound
      "1_claude_improve" .ok (some [("claude", .s "ok")])).updateRound
      "2_codex_critique" .ok (some [("codex", .s "ok")])).updateRound
      "3_claude_finalize" .ok (some [("claude", .s "ok")])

/-- Witness for C6 at a concrete all-`ok` checkpoint. -/
theorem resume_noop_witness :
    resumePipeline cfgBoth docAllOk (some "Fix the login bug") agentsAllOk artEmpty
        false "T1" =
      .ok { finalSaved := none, overallStatus := none, doc := docAllOk, writes := []
            calls := [], singleFinal := none, r0ClaudeEff := none, r0CodexEff := none
            improved := none, critique := none } :=
  resume_noop cfgBoth docAllOk "Fix the login bug" agentsAllOk artEmpty false "T1"
    (by rfl) (by rfl) (by rfl) (by rfl)

/-! ### Shared lemmas about round statuses along a fresh run -/

theorem roundStatus_initState (m t : String) (tl : List String) (now n : String)
    (h : n ∈ ROUND_NAMES) : (initState m t tl now).roundStatus n = some "pending" := by
  fin_cases h <;> rfl

theorem okStdout_of_ok (r : ToolResult) (h : toolOkB r = true) :
    okStdout (some r) = r.stdout := by
  simp [okStdout, h]

theorem okStdout_of_fail (r : ToolResult) (h : toolOkB r = false) :
    okStdout (some r) = "" := by
  simp [okStdout, h]

theorem stdout_ne_of_ok (r : ToolResult) (h : toolOkB r = true) :
    (r.stdout == "") = false := by
  have h2 := (Bool.and_eq_true _ _).mp h |>.2
  simpa [bne] using h2

theorem stdout_ne_empty_of_ok (r : ToolResult) (h : toolOkB r = true) :
    r.stdout ≠ "" := by
  simpa using stdout_ne_of_ok r h

/-! ### C2: single-tool fallback -/

/-- Round 0: claude succeeds, codex fails entirely. -/
def agentsClaudeOnly : Agents := { agentsAllOk with r0Codex := failTR }

/-- **C2 counterexample.** The claim quantifies over both one-sided
round-0 outcomes, but when claude succeeds and codex fails entirely the
orchestrator does NOT short-circuit: rounds 1 and 3 are attempted (and
round 1 transitions to `ok`), contradicting "rounds 1-3 are never
attempted (their checkpoint entries remain pending)". -/
theorem single_tool_fallback_cex :
    toolOkB agentsClaudeOnly.r0Claude = true ∧
    toolOkB agentsClaudeOnly.r0Codex = false ∧
    (runPipeline cfgBoth optsFresh agentsClaudeOnly artEmpty id "T0" "T1").calls
      = [("0_generate", "claude"), ("0_generate", "codex"),
         ("1_claude_improve", "claude"), ("3_claude_finalize", "claude")] ∧
    (runPipeline cfgBoth optsFresh agentsClaudeOnly artEmpty id "T0" "T1").doc.roundStatus
        "1_claude_improve" = some "ok" :=
  ⟨rfl, rfl, by rfl, by rfl⟩

/-- **C2 (amended).** The short-circuit fires only in one direction:
when claude fails entirely in round 0 and codex succeeds, codex's
round-0 stdout becomes the final result verbatim, rounds 1-3 are never
attempted (their checkpoint entries stay `pending` in every persisted
write), and the run is finalised as a (degraded) `completed` success.
When codex is the failing role the run instead continues in degraded
mode (see the counterexample). -/
theorem single_tool_fallback (cfg : PipeCfg) (opts : POpts) (agents : Agents)
    (art : Artifacts) (redactFn : String → String) (t0 t1 : String)
    (hcc : cfg.cfgClaude = true) (hcx : cfg.cfgCodex = true)
    (htc : opts.tools.contains "claude" = true)
    (htx : opts.tools.contains "codex" = true)
    (hns : opts.noSave = false) (hdr : opts.dryRun = false)
    (hrd : opts.redactPaths = false)
    (hcf : toolOkB agents.r0Claude = false)
    (hxs : toolOkB agents.r0Codex = true) :
    (runPipeline cfg opts agents art redactFn t0 t1).finalSaved
        = some agents.r0Codex.stdout ∧
    (runPipeline cfg opts agents art redactFn t0 t1).singleFinal
        = some agents.r0Codex.stdout ∧
    (runPipeline cfg opts agents art redactFn t0 t1).calls
        = [("0_generate", "claude"), ("0_generate", "codex")] ∧
    (runPipeline cfg opts agents art redactFn t0 t1).overallStatus = some "completed" ∧
    (runPipeline cfg opts agents art redactFn t0 t1).doc.finished_at = some t1 ∧
    (∀ w ∈ (runPipeline cfg opts agents art redactFn t0 t1).writes,
        w.roundStatus "1_claude_improve" = some "pending" ∧
        w.roundStatus "2_codex_critique" = some "pending" ∧
        w.roundStatus "3_claude_finalize" = some "pending") := by
  have hxne := stdout_ne_of_ok agents.r0Codex hxs
  have hmc : "claude" ∈ opts.tools := by simpa using htc
  have hmx : "codex" ∈ opts.tools := by simpa using htx
  have hxnep : agents.r0Codex.stdout ≠ "" := by simpa using hxne
  have hrun : runPipeline cfg opts agents art redactFn t0 t1 =
      { finalSaved := some agents.r0Codex.stdout
        overallStatus := some "completed"
        doc := (((initState opts.mode opts.task opts.tools t0).updateRound
            "0_generate" .running none).updateRound "0_generate" .ok
            (some (roundToolStatuses
              [("claude", agents.r0Claude), ("codex", agents.r0Codex)]))).markFinished
            "completed" t1
        writes := [initState opts.mode opts.task opts.tools t0,
          (initState opts.mode opts.task opts.tools t0).updateRound
            "0_generate" .running none,
          ((initState opts.mode opts.task opts.tools t0).updateRound
            "0_generate" .running none).updateRound "0_generate" .ok
            (some (roundToolStatuses
              [("claude", agents.r0Claude), ("codex", agents.r0Codex)])),
          (((initState opts.mode opts.task opts.tools t0).updateRound
            "0_generate" .running none).updateRound "0_generate" .ok
            (some (roundToolStatuses
              [("claude", agents.r0Claude), ("codex", agents.r0Codex)]))).markFinished
            "completed" t1]
        calls := [("0_generate", "claude"), ("0_generate", "codex")]
        singleFinal := some agents.r0Codex.stdout
        r0ClaudeEff := some ""
        r0CodexEff := some agents.r0Codex.stdout
        improved := none
        critique := none } := by
    unfold runPipeline runRoundsFull runRounds123
    simp [hcc, hcx, htc, htx, hmc, hmx, hns, hdr, hrd, hcf, hxs, hxne, hxnep, okStdout,
      pUpdate, pCall, shouldRunRound]
  rw [hrun]
  refine ⟨rfl, rfl, rfl, rfl, rfl, ?_⟩
  have hpend : ∀ r : String, r ∈ ROUND_NAMES → r ≠ "0_generate" →
      ∀ (st1 st2 : RoundStatus) (ts1 ts2 : Option (List (String × ToolVal))),
      (((initState opts.mode opts.task opts.tools t0).updateRound "0_generate" st1
          ts1).updateRound "0_generate" st2 ts2).roundStatus r = some "pending" := by
    intro r hmem hne st1 st2 ts1 ts2
    rw [roundStatus_updateRound_ne _ _ _ _ _ hne, roundStatus_updateRound_ne _ _ _ _ _ hne]
    exact roundStatus_initState _ _ _ _ _ hmem
  intro w hw
  simp only [List.mem_cons, List.not_mem_nil, or_false] at hw
  rcases hw with rfl | rfl | rfl | rfl
  · exact ⟨roundStatus_initState _ _ _ _ _ (by decide),
      roundStatus_initState _ _ _ _ _ (by decide),
      roundStatus_initState _ _ _ _ _ (by decide)⟩
  · refine ⟨?_, ?_, ?_⟩ <;>
      · rw [roundStatus_updateRound_ne _ _ _ _ _ (by decide)]
        exact roundStatus_initState _ _ _ _ _ (by decide)
  · exact ⟨hpend _ (by decide) (by decide) _ _ _ _,
      hpend _ (by decide) (by decide) _ _ _ _,
      hpend _ (by decide) (by decide) _ _ _ _⟩
  · rw [roundStatus_markFinished, roundStatus_markFinished, roundStatus_markFinished]
    exact ⟨hpend _ (by decide) (by decide) _ _ _ _,
      hpend _ (by decide) (by decide) _ _ _ _,
      hpend _ (by decide) (by decide) _ _ _ _⟩

/-- Round 0: claude fails entirely, codex succeeds. -/
def agentsCodexOnly : Agents := { agentsAllOk with r0Claude := failTR }

/-- Witness for C2's amended statement at concrete inputs. -/
theorem single_tool_fallback_witness :
    (runPipeline cfgBoth optsFresh agentsCodexOnly artEmpty id "T0" "T1").finalSaved
        = some agentsCodexOnly.r0Codex.stdout ∧
    (runPipeline cfgBoth optsFresh agentsCodexOnly artEmpty id "T0" "T1").singleFinal
        = some agentsCodexOnly.r0Codex.stdout ∧
    (runPipeline cfgBoth optsFresh agentsCodexOnly artEmpty id "T0" "T1").calls
        = [("0_generate", "claude"), ("0_generate", "codex")] ∧
    (runPipeline cfgBoth optsFresh agentsCodexOnly artEmpty id "T0" "T1").overallStatus
        = some "completed" ∧
    (runPipeline cfgBoth optsFresh agentsCodexOnly artEmpty id "T0" "T1").doc.finished_at
        = some "T1" ∧
    (∀ w ∈ (runPipeline cfgBoth optsFresh agentsCodexOnly artEmpty id "T0" "T1").writes,
        w.roundStatus "1_claude_improve" = some "pending" ∧
        w.roundStatus "2_codex_critique" = some "pending" ∧
        w.roundStatus "3_claude_finalize" = some "pending") :=
  single_tool_fallback cfgBoth optsFresh agentsCodexOnly artEmpty id "T0" "T1"
    rfl rfl (by decide) (by decide) rfl rfl rfl (by decide) (by decide)

/-! ### C3: abort invariant -/

/-- **C3.** When every participant invoked in round 0 fails (no role
yields a non-empty, exit-code-0 stdout), the run's final persisted
overall status is `failed`, round `0_generate` is recorded `failed`
with the per-participant outcome map, no final artifact is saved, only
round-0 invocations happened, and the checkpoint entries for rounds
1-3 stay `pending` in every persisted write.  `bc`/`bx` stand for the
role-availability booleans (`has_claude`/`has_codex`). -/
theorem abort_invariant (cfg : PipeCfg) (opts : POpts) (agents : Agents)
    (art : Artifacts) (redactFn : String → String) (t0 t1 : String) (bc bx : Bool)
    (hbc : (opts.tools.contains "claude" && cfg.cfgClaude) = bc)
    (hbx : (opts.tools.contains "codex" && cfg.cfgCodex) = bx)
    (hone : bc = true ∨ bx = true)
    (hns : opts.noSave = false) (hdr : opts.dryRun = false)
    (hfc : bc = true → toolOkB agents.r0Claude = false)
    (hfx : bx = true → toolOkB agents.r0Codex = false) :
    (runPipeline cfg opts agents art redactFn t0 t1).overallStatus = some "failed" ∧
    (runPipeline cfg opts agents art redactFn t0 t1).doc.status = "failed" ∧
    (runPipeline cfg opts agents art redactFn t0 t1).doc.finished_at = some t1 ∧
    (runPipeline cfg opts agents art redactFn t0 t1).finalSaved = none ∧
    (runPipeline cfg opts agents art redactFn t0 t1).calls
      = (if bc then [("0_generate", "claude")] else [])
        ++ (if bx then [("0_generate", "codex")] else []) ∧
    (runPipeline cfg opts agents art redactFn t0 t1).doc.roundStatus "0_generate"
      = some "failed" ∧
    ((runPipeline cfg opts agents art redactFn t0 t1).doc.rounds.lookup
        "0_generate").map RoundState.tools
      = some (roundToolStatuses
          ((if bc then [("claude", agents.r0Claude)] else [])
            ++ (if bx then [("codex", agents.r0Codex)] else []))) ∧
    (∀ w ∈ (runPipeline cfg opts agents art redactFn t0 t1).writes,
        w.roundStatus "1_claude_improve" = some "pending" ∧
        w.roundStatus "2_codex_critique" = some "pending" ∧
        w.roundStatus "3_claude_finalize" = some "pending") := by
  cases bc with
  | false =>
    cases bx with
    | false => simp at hone
    | true =>
      obtain ⟨htx, hcx⟩ := (Bool.and_eq_true _ _).mp hbx
      have hmx : "codex" ∈ opts.tools := by simpa using htx
      have hnc : ¬("claude" ∈ opts.tools ∧ cfg.cfgClaude = true) := by simpa using hbc
      have hxf := hfx rfl
      have hrun : runPipeline cfg opts agents art redactFn t0 t1 =
          { finalSaved := none, overallStatus := some "failed"
            doc := (((initState opts.mode opts.task opts.tools t0).updateRound
                "0_generate" .running none).updateRound "0_generate" .failed
                (some (roundToolStatuses [("codex", agents.r0Codex)]))).markFinished
                "failed" t1
            writes := [initState opts.mode opts.task opts.tools t0,
              (initState opts.mode opts.task opts.tools t0).updateRound
                "0_generate" .running none,
              ((initState opts.mode opts.task opts.tools t0).updateRound
                "0_generate" .running none).updateRound "0_generate" .failed
                (some (roundToolStatuses [("codex", agents.r0Codex)])),
              (((initState opts.mode opts.task opts.tools t0).updateRound
                "0_generate" .running none).updateRound "0_generate" .failed
                (some (roundToolStatuses [("codex", agents.r0Codex)]))).markFinished
                "failed" t1]
            calls := [("0_generate", "codex")], singleFinal := none
            r0ClaudeEff := some "", r0CodexEff := some "", improved := none
            critique := none } := by
        unfold runPipeline runRoundsFull
        simp [hbc, hnc, htx, hcx, hmx, hxf, hns, hdr, okStdout, pUpdate, pCall,
          shouldRunRound]
      rw [hrun]
      refine ⟨rfl, rfl, rfl, rfl, rfl, rfl, rfl, ?_⟩
      intro w hw
      simp only [List.mem_cons, List.not_mem_nil, or_false] at hw
      rcases hw with rfl | rfl | rfl | rfl <;> exact ⟨rfl, rfl, rfl⟩
  | true =>
    obtain ⟨htc, hcc⟩ := (Bool.and_eq_true _ _).mp hbc
    have hmc : "claude" ∈ opts.tools := by simpa using htc
    have hcf := hfc rfl
    cases bx with
    | false =>
      have hnx : ¬("codex" ∈ opts.tools ∧ cfg.cfgCodex = true) := by simpa using hbx
      have hrun : runPipeline cfg opts agents art redactFn t0 t1 =
          { finalSaved := none, overallStatus := some "failed"
            doc := (((initState opts.mode opts.task opts.tools t0).updateRound
                "0_generate" .running none).updateRound "0_generate" .failed
                (some (roundToolStatuses [("claude", agents.r0Claude)]))).markFinished
                "failed" t1
            writes := [initState opts.mode opts.task opts.tools t0,
              (initState opts.mode opts.task opts.tools t0).updateRound
                "0_generate" .running none,
              ((initState opts.mode opts.task opts.tools t0).updateRound
                "0_generate" .running none).updateRound "0_generate" .failed
                (some (roundToolStatuses [("claude", agents.r0Claude)])),
              (((initState opts.mode opts.task opts.tools t0).updateRound
                "0_generate" .running none).updateRound "0_generate" .failed
                (some (roundToolStatuses [("claude", agents.r0Claude)]))).markFinished
                "failed" t1]
            calls := [("0_generate", "claude")], singleFinal := none
            r0ClaudeEff := some "", r0CodexEff := some "", improved := none
            critique := none } := by
        unfold runPipeline runRoundsFull
        simp [hbx, hnx, htc, hcc, hmc, hcf, hns, hdr, okStdout, pUpdate, pCall,
          shouldRunRound]
      rw [hrun]
      refine ⟨rfl, rfl, rfl, rfl, rfl, rfl, rfl, ?_⟩
      intro w hw
      simp only [List.mem_cons, List.not_mem_nil, or_false] at hw
      rcases hw with rfl | rfl | rfl | rfl <;> exact ⟨rfl, rfl, rfl⟩
    | true =>
      obtain ⟨htx, hcx⟩ := (Bool.and_eq_true _ _).mp hbx
      have hmx : "codex" ∈ opts.tools := by simpa using htx
      have hxf := hfx rfl
      have hrun : runPipeline cfg opts agents art redactFn t0 t1 =
          { finalSaved := none, overallStatus := some "failed"
            doc := (((initState opts.mode opts.task opts.tools t0).updateRound
                "0_generate" .running none).updateRound "0_generate" .failed
                (some (roundToolStatuses
                  [("claude", agents.r0Claude), ("codex", agents.r0Codex)]))).markFinished
                "failed" t1
            writes := [initState opts.mode opts.task opts.tools t0,
              (initState opts.mode opts.task opts.tools t0).updateRound
                "0_generate" .running none,
              ((initState opts.mode opts.task opts.tools t0).updateRound
                "0_generate" .running none).updateRound "0_generate" .failed
                (some (roundToolStatuses
                  [("claude", agents.r0Claude), ("codex", agents.r0Codex)])),
              (((initState opts.mode opts.task opts.tools t0).updateRound
                "0_generate" .running none).updateRound "0_generate" .failed
                (some (roundToolStatuses
                  [("claude", agents.r0Claude), ("codex", agents.r0Codex)]))).markFinished
                "failed" t1]
            calls := [("0_generate", "claude"), ("0_generate", "codex")]
            singleFinal := none, r0ClaudeEff := some "", r0CodexEff := some ""
            improved := none, critique := none } := by
        unfold runPipeline runRoundsFull
        simp [htc, hcc, hmc, htx, hcx, hmx, hcf, hxf, hns, hdr, okStdout, pUpdate, pCall,
          shouldRunRound]
      rw [hrun]
      refine ⟨rfl, rfl, rfl, rfl, rfl, rfl, rfl, ?_⟩
      intro w hw
      simp only [List.mem_cons, List.not_mem_nil, or_false] at hw
      rcases hw with rfl | rfl | rfl | rfl <;> exact ⟨rfl, rfl, rfl⟩

/-- Round 0: both roles fail. -/
def agentsBothFail : Agents := { agentsAllOk with r0Claude := failTR, r0Codex := failTR }

/-- Witness for C3 at concrete inputs where both roles fail in round 0. -/
theorem abort_invariant_witness :
    (runPipeline cfgBoth optsFresh agentsBothFail artEmpty id "T0" "T1").overallStatus
      = some "failed" ∧
    (runPipeline cfgBoth optsFresh agentsBothFail artEmpty id "T0" "T1").doc.status
      = "failed" ∧
    (runPipeline cfgBoth optsFresh agentsBothFail artEmpty id "T0" "T1").doc.finished_at
      = some "T1" ∧
    (runPipeline cfgBoth optsFresh agentsBothFail artEmpty id "T0" "T1").finalSaved
      = none ∧
    (runPipeline cfgBoth optsFresh agentsBothFail artEmpty id "T0" "T1").calls
      = (if true then [("0_generate", "claude")] else [])
        ++ (if true then [("0_generate", "codex")] else []) ∧
    (runPipeline cfgBoth optsFresh agentsBothFail artEmpty id "T0" "T1").doc.roundStatus
        "0_generate" = some "failed" ∧
    ((runPipeline cfgBoth optsFresh agentsBothFail artEmpty id "T0" "T1").doc.rounds.lookup
        "0_generate").map RoundState.tools
      = some (roundToolStatuses
          ((if true then [("claude", agentsBothFail.r0Claude)] else [])
            ++ (if true then [("codex", agentsBothFail.r0Codex)] else []))) ∧
    (∀ w ∈ (runPipeline cfgBoth optsFresh agentsBothFail artEmpty id "T0" "T1").writes,
        w.roundStatus "1_claude_improve" = some "pending" ∧
        w.roundStatus "2_codex_critique" = some "pending" ∧
        w.roundStatus "3_claude_finalize" = some "pending") :=
  abort_invariant cfgBoth optsFresh agentsBothFail artEmpty id "T0" "T1" true true
    (by decide) (by decide) (Or.inl rfl) rfl rfl (fun _ => by decide) (fun _ => by decide)

/-! ### C7: round-2 gating -/

/-- **C7 counterexample.** "Round 2 is attempted if and only if codex
succeeded somewhere in round 0" fails in the only-if direction: when
codex succeeds in round 0 but claude fails entirely, the single-tool
fallback ends the run after round 0, so round 2 is never attempted even
though codex succeeded (and was recorded `ok`). -/
theorem round2_gating_cex :
    toolOkB agentsCodexOnly.r0Codex = true ∧
    (runPipeline cfgBoth optsFresh agentsCodexOnly artEmpty id "T0" "T1").doc.roundStatus
        "0_generate" = some "ok" ∧
    ((runPipeline cfgBoth optsFresh agentsCodexOnly artEmpty id "T0" "T1").doc.rounds.lookup
        "0_generate").map RoundState.tools
      = some [("claude", .s "failed"), ("codex", .s "ok")] ∧
    ("2_codex_critique", "codex") ∉
      (runPipeline cfgBoth optsFresh agentsCodexOnly artEmpty id "T0" "T1").calls :=
  ⟨rfl, by rfl, by rfl, by decide⟩

/-- **C7 (amended).** On a fresh run with both roles requested and
configured, round `2_codex_critique` is attempted iff claude AND codex
both succeeded in round 0 and codex's round-0 stdout is not the literal
unavailability placeholder (the source detects codex availability by
comparing against that sentinel string); when codex failed entirely in
round 0 while claude succeeded, round 2 is recorded `skipped`, its
effective output is the fixed placeholder, and rounds 1 and 3 still
proceed using claude alone. -/
theorem round2_gating (cfg : PipeCfg) (opts : POpts) (agents : Agents)
    (art : Artifacts) (redactFn : String → String) (t0 t1 : String)
    (hcc : cfg.cfgClaude = true) (hcx : cfg.cfgCodex = true)
    (htc : opts.tools.contains "claude" = true)
    (htx : opts.tools.contains "codex" = true)
    (hns : opts.noSave = false) (hdr : opts.dryRun = false) :
    ((("2_codex_critique", "codex")
        ∈ (runPipeline cfg opts agents art redactFn t0 t1).calls) ↔
      (toolOkB agents.r0Claude = true ∧ toolOkB agents.r0Codex = true ∧
        agents.r0Codex.stdout ≠ codexUnavailableR0)) ∧
    (toolOkB agents.r0Claude = true → toolOkB agents.r0Codex = false →
      (runPipeline cfg opts agents art redactFn t0 t1).doc.roundStatus
          "2_codex_critique" = some "skipped" ∧
      (runPipeline cfg opts agents art redactFn t0 t1).critique
          = some codexNotAvailable ∧
      (runPipeline cfg opts agents art redactFn t0 t1).calls
          = [("0_generate", "claude"), ("0_generate", "codex"),
             ("1_claude_improve", "claude"), ("3_claude_finalize", "claude")]) := by
  have hmc : "claude" ∈ opts.tools := by simpa using htc
  have hmx : "codex" ∈ opts.tools := by simpa using htx
  constructor
  · cases hc : toolOkB agents.r0Claude with
    | false =>
      cases hx : toolOkB agents.r0Codex with
      | false =>
        unfold runPipeline runRoundsFull
        simp [hcc, hcx, htc, htx, hmc, hmx, hns, hdr, hc, hx, okStdout, pUpdate, pCall,
          shouldRunRound]
      | true =>
        have hx' := stdout_ne_of_ok agents.r0Codex hx
        have hx2 := stdout_ne_empty_of_ok agents.r0Codex hx
        unfold runPipeline runRoundsFull runRounds123
        simp [hcc, hcx, htc, htx, hmc, hmx, hns, hdr, hc, hx, hx', hx2, okStdout, pUpdate,
          pCall, shouldRunRound]
    | true =>
      have hc' := stdout_ne_of_ok agents.r0Claude hc
      have hc2 := stdout_ne_empty_of_ok agents.r0Claude hc
      cases hx : toolOkB agents.r0Codex with
      | false =>
        by_cases h1 : toolOkB agents.r1Claude = true <;>
          by_cases h3 : toolOkB agents.r3Claude = true <;>
          · unfold runPipeline runRoundsFull runRounds123
            simp [hcc, hcx, htc, htx, hmc, hmx, hns, hdr, hc, hc', hc2, hx, h1, h3,
              okStdout, pUpdate, pCall, shouldRunRound, codexUnavailableR0]
      | true =>
        have hx' := stdout_ne_of_ok agents.r0Codex hx
        have hx2 := stdout_ne_empty_of_ok agents.r0Codex hx
        by_cases hp : agents.r0Codex.stdout = codexUnavailableR0
        · by_cases h1 : toolOkB agents.r1Claude = true <;>
            by_cases h3 : toolOkB agents.r3Claude = true <;>
            · unfold runPipeline runRoundsFull runRounds123
              simp [hcc, hcx, htc, htx, hmc, hmx, hns, hdr, hc, hc', hc2, hx, hx', hx2,
                hp, h1, h3, okStdout, pUpdate, pCall, shouldRunRound, codexUnavailableR0]
        · have hp' : (agents.r0Codex.stdout == codexUnavailableR0) = false := by
            simpa using hp
          by_cases h1 : toolOkB agents.r1Claude = true <;>
            by_cases h2 : toolOkB agents.r2Codex = true <;>
            by_cases h3 : toolOkB agents.r3Claude = true <;>
            · unfold runPipeline runRoundsFull runRounds123
              simp [hcc, hcx, htc, htx, hmc, hmx, hns, hdr, hc, hc', hc2, hx, hx', hx2,
                hp, hp', h1, h2, h3, okStdout, pUpdate, pCall, shouldRunRound]
  · intro hc hx
    have hc' := stdout_ne_of_ok agents.r0Claude hc
    have hc2 := stdout_ne_empty_of_ok agents.r0Claude hc
    by_cases h1 : toolOkB agents.r1Claude = true <;>
      by_cases h3 : toolOkB agents.r3Claude = true <;>
      · unfold runPipeline runRoundsFull runRounds123
        simp [hcc, hcx, htc, htx, hmc, hmx, hns, hdr, hc, hc', hc2, hx, h1, h3, okStdout,
          pUpdate, pCall, shouldRunRound, codexUnavailableR0, StateDoc.roundStatus,
          StateDoc.updateRound, updateRoundState, StateDoc.markFinished, initState,
          ROUND_NAMES, List.lookup, RoundStatus.value]

/-- Witness for C7's amended statement at concrete inputs (codex failed
in round 0, claude succeeded everywhere). -/
theorem round2_gating_witness :
    ((("2_codex_critique", "codex")
        ∈ (runPipeline cfgBoth optsFresh agentsClaudeOnly artEmpty id "T0" "T1").calls) ↔
      (toolOkB agentsClaudeOnly.r0Claude = true ∧
        toolOkB agentsClaudeOnly.r0Codex = true ∧
        agentsClaudeOnly.r0Codex.stdout ≠ codexUnavailableR0)) ∧
    (toolOkB agentsClaudeOnly.r0Claude = true →
      toolOkB agentsClaudeOnly.r0Codex = false →
      (runPipeline cfgBoth optsFresh agentsClaudeOnly artEmpty id "T0" "T1").doc.roundStatus
          "2_codex_critique" = some "skipped" ∧
      (runPipeline cfgBoth optsFresh agentsClaudeOnly artEmpty id "T0" "T1").critique
          = some codexNotAvailable ∧
      (runPipeline cfgBoth optsFresh agentsClaudeOnly artEmpty id "T0" "T1").calls
          = [("0_generate", "claude"), ("0_generate", "codex"),
             ("1_claude_improve", "claude"), ("3_claude_finalize", "claude")]) :=
  round2_gating cfgBoth optsFresh agentsClaudeOnly artEmpty id "T0" "T1"
    rfl rfl (by decide) (by decide) rfl rfl

/-! ### C1: resume determinism -/

/-- A checkpoint claiming rounds 0-1 `ok` and rounds 2-3 pending, from
a run in which codex failed in round 0 (its outcome map records it) —
reachable by interrupting the original run between round 1's `ok`
update and round 2's `skipped` update. -/
def docC1 : StateDoc :=
  ((initState "fix" "Fix the login bug" ["claude", "codex"] "T0").updateRound "0_generate"
      .ok (some [("claude", .s "ok"), ("codex", .s "failed")])).updateRound
      "1_claude_improve" .ok (some [("claude", .s "ok")])

/-- Artifacts of that run: codex's round-0 stdout file exists but is
empty (codex produced nothing). -/
def artC1 : Artifacts := fun r f =>
  if r == "0_generate" && f == "claude_stdout.md" then some "Claude R0 analysis"
  else if r == "0_generate" && f == "codex_stdout.md" then some ""
  else if r == "1_claude_improve" && f == "stdout.md" then some "Claude improved analysis"
  else none

/-- **C1 counterexample.** A persisted checkpoint with rounds 0-1 `ok`
and rounds 2-3 pending for which resume does NOT execute rounds 2 and
3: the reloaded codex round-0 artifact is empty, so codex is deemed
unavailable, round 2 is skipped, and only round 3 executes. -/
theorem resume_determinism_cex :
    docC1.roundStatus "0_generate" = some "ok" ∧
    docC1.roundStatus "1_claude_improve" = some "ok" ∧
    docC1.roundStatus "2_codex_critique" = some "pending" ∧
    docC1.roundStatus "3_claude_finalize" = some "pending" ∧
    (resumePipeline cfgBoth docC1 (some "Fix the login bug") agentsAllOk artC1 false
        "T1").toOption.map PipelineOut.calls = some [("3_claude_finalize", "claude")] :=
  ⟨by rfl, by rfl, by rfl, by rfl, by rfl⟩

/-- **C1 (amended).** For a run whose persisted checkpoint records
rounds 0-1 `ok` and rounds 2-3 pending, and whose saved round-0
artifacts hold a non-empty claude output and a non-empty codex output
differing from the unavailability placeholder, `resume_pipeline`
executes exactly rounds `2_codex_critique` and `3_claude_finalize`, in
that order, invokes no agent for any round-0 or round-1 participant,
and reconstructs the earlier rounds' effective outputs from the saved
artifacts (round 1's saved stdout, falling back to the claude round-0
artifact when absent).  When the codex round-0 artifact is empty, round
2 is instead skipped (see the counterexample). -/
theorem resume_determinism (cfg : PipeCfg) (d : StateDoc) (task : String)
    (agents : Agents) (art : Artifacts) (now : String) (a b : String)
    (hcc : cfg.cfgClaude = true) (hcx : cfg.cfgCodex = true)
    (htc : d.tools.contains "claude" = true) (htx : d.tools.contains "codex" = true)
    (h0 : d.roundStatus "0_generate" = some "ok")
    (h1 : d.roundStatus "1_claude_improve" = some "ok")
    (h2 : d.roundStatus "2_codex_critique" = some "pending")
    (_h3 : d.roundStatus "3_claude_finalize" = some "pending")
    (ha : loadRoundOutput art "0_generate" "claude" = a) (ha' : a ≠ "")
    (hb : loadRoundOutput art "0_generate" "codex" = b) (hb' : b ≠ "")
    (hb'' : b ≠ codexUnavailableR0) :
    (resumePipeline cfg d (some task) agents art false now).toOption.map
        (fun o => (o.calls, o.r0ClaudeEff, o.r0CodexEff, o.improved))
      = some ([("2_codex_critique", "codex"), ("3_claude_finalize", "claude")],
          some a, some b,
          some (if loadRoundOutput art "1_claude_improve" "claude" == "" then a
                else loadRoundOutput art "1_claude_improve" "claude")) := by
  have hrp : getResumePoint d = some "2_codex_critique" := by
    simp [getResumePoint, ROUND_NAMES, List.find?, h0, h1, h2]
  have hmc : "claude" ∈ d.tools := by simpa using htc
  have hmx : "codex" ∈ d.tools := by simpa using htx
  have ha2 : (a == "") = false := by simpa using ha'
  have hb2 : (b == "") = false := by simpa using hb'
  have hb3 : (b == codexUnavailableR0) = false := by simpa using hb''
  have s0 : shouldRunRound (some "2_codex_critique") [] "0_generate" = false := by decide
  have s1 : shouldRunRound (some "2_codex_critique") [] "1_claude_improve" = false := by
    decide
  have s2 : shouldRunRound (some "2_codex_critique") [] "2_codex_critique" = true := by
    decide
  have s3 : shouldRunRound (some "2_codex_critique") [] "3_claude_finalize" = true := by
    decide
  by_cases h2c : toolOkB agents.r2Codex = true <;>
    by_cases h3c : toolOkB agents.r3Claude = true <;>
    · unfold resumePipeline runRoundsFull runRounds123
      simp [hrp, hcc, hcx, htc, htx, hmc, hmx, ha, ha', ha2, hb, hb', hb2, hb3, hb'',
        h2c, h3c, s0, s1, s2, s3, okStdout, pUpdate, pCall, Except.toOption]

/-- A checkpoint with rounds 0-1 `ok` (both roles succeeding) and
rounds 2-3 pending, as in the repository's resume tests. -/
def docC1ok : StateDoc :=
  ((initState "fix" "Fix the login bug" ["claude", "codex"] "T0").updateRound "0_generate"
      .ok (some [("claude", .s "ok"), ("codex", .s "ok")])).updateRound
      "1_claude_improve" .ok (some [("claude", .s "ok")])

/-- Artifacts of that run: non-empty stdout for both round-0 roles and
for round 1. -/
def artC1ok : Artifacts := fun r f =>
  if r == "0_generate" && f == "claude_stdout.md" then some "Claude R0 analysis"
  else if r == "0_generate" && f == "codex_stdout.md" then some "Codex R0 analysis"
  else if r == "1_claude_improve" && f == "stdout.md" then some "Claude improved analysis"
  else none

/-- Witness for C1's amended statement at concrete inputs. -/
theorem resume_determinism_witness :
    (resumePipeline cfgBoth docC1ok (some "Fix the login bug") agentsAllOk artC1ok false
        "T1").toOption.map (fun o => (o.calls, o.r0ClaudeEff, o.r0CodexEff, o.improved))
      = some ([("2_codex_critique", "codex"), ("3_claude_finalize", "claude")],
          some "Claude R0 analysis", some "Codex R0 analysis",
          some (if loadRoundOutput artC1ok "1_claude_improve" "claude" == ""
                then "Claude R0 analysis"
                else loadRoundOutput artC1ok "1_claude_improve" "claude")) :=
  resume_determinism cfgBoth docC1ok "Fix the login bug" agentsAllOk artC1ok "T1"
    "Claude R0 analysis" "Codex R0 analysis" rfl rfl (by decide) (by decide)
    (by rfl) (by rfl) (by rfl) (by rfl) (by rfl) (by decide) (by rfl) (by decide)
    (by decide)

/-! ### C4: candidate selection -/

theorem pickFold_cons (f : α → Nat) (x a : α) (xs : List α) :
    pickFold f x (a :: xs) = pickFold f (if f a > f x then a else x) xs := rfl

theorem pickFold_mem (f : α → Nat) (x : α) (xs : List α) : pickFold f x xs ∈ x :: xs := by
  induction xs generalizing x with
  | nil => exact List.mem_singleton.mpr rfl
  | cons a as ih =>
    rw [pickFold_cons]
    by_cases hfa : f a > f x
    · rw [if_pos hfa]
      have h := ih a
      simp only [List.mem_cons] at h ⊢
      tauto
    · rw [if_neg hfa]
      have h := ih x
      simp only [List.mem_cons] at h ⊢
      tauto

theorem pickFold_max (f : α → Nat) (x : α) (xs : List α) :
    ∀ y ∈ x :: xs, f y ≤ f (pickFold f x xs) := by
  induction xs generalizing x with
  | nil =>
    intro y hy
    simp only [List.mem_singleton] at hy
    subst hy
    exact le_refl _
  | cons a as ih =>
    intro y hy
    rw [pickFold_cons]
    have hxle : f x ≤ f (if f a > f x then a else x) := by
      by_cases hfa : f a > f x
      · rw [if_pos hfa]; omega
      · rw [if_neg hfa]
    have hale : f a ≤ f (if f a > f x then a else x) := by
      by_cases hfa : f a > f x
      · rw [if_pos hfa]
      · rw [if_neg hfa]; omega
    have hhead : f (if f a > f x then a else x)
        ≤ f (pickFold f (if f a > f x then a else x) as) :=
      ih _ _ (List.mem_cons_self _ _)
    simp only [List.mem_cons] at hy
    rcases hy with rfl | rfl | hmem
    · exact le_trans hxle hhead
    · exact le_trans hale hhead
    · exact ih _ y (List.mem_cons_of_mem _ hmem)

theorem pickFold_split (f : α → Nat) (x : α) (xs : List α) :
    ∃ l1 l2, x :: xs = l1 ++ pickFold f x xs :: l2 ∧
      ∀ y ∈ l1, f y < f (pickFold f x xs) := by
  induction xs generalizing x with
  | nil => exact ⟨[], [], rfl, by simp⟩
  | cons a as ih =>
    rw [pickFold_cons]
    by_cases hfa : f a > f x
    · rw [if_pos hfa]
      obtain ⟨l1, l2, heq, hlt⟩ := ih a
      refine ⟨x :: l1, l2, ?_, ?_⟩
      · rw [List.cons_append, ← heq]
      · intro y hy
        rcases List.mem_cons.mp hy with rfl | hmem
        · exact lt_of_lt_of_le hfa (pickFold_max f a as a (List.mem_cons_self _ _))
        · exact hlt y hmem
    · rw [if_neg hfa]
      obtain ⟨l1, l2, heq, hlt⟩ := ih x
      cases l1 with
      | nil =>
        rw [List.nil_append] at heq
        obtain ⟨h1, h2⟩ := List.cons.inj heq
        refine ⟨[], a :: l2, ?_, by simp⟩
        rw [List.nil_append, ← h1, h2]
      | cons z l1' =>
        rw [List.cons_append] at heq
        obtain ⟨h1, h2⟩ := List.cons.inj heq
        refine ⟨x :: a :: l1', l2, ?_, ?_⟩
        · rw [List.cons_append, List.cons_append, ← h2]
        · intro y hy
          have hzlt : f z < f (pickFold f x as) := hlt z (List.mem_cons_self _ _)
          have e2 : f x = f z := by rw [h1]
          rcases List.mem_cons.mp hy with hyx | hy2
          · have e1 : f y = f x := by rw [hyx]
            omega
          · rcases List.mem_cons.mp hy2 with hya | hy3
            · have hax : f a ≤ f x := Nat.le_of_not_lt hfa
              have e1 : f y = f a := by rw [hya]
              omega
            · exact hlt y (List.mem_cons_of_mem _ hy3)

/-- **C4.** For every non-empty candidate list, `pick_best` returns a
winner from the list such that: a single candidate is returned
unchanged; whenever any candidate has a parsed confidence score the
winner has one, the winner's score is maximal among the scored
candidates, and the winner is the first scored candidate attaining
that score (input-order tie-break); and when no candidate has a score,
the winner's text length is maximal and the winner is the first
candidate attaining that length. -/
theorem pick_best_spec (cands : List (String × String)) (hne : cands ≠ []) :
    ∃ w, pick_best cands = some w ∧ w ∈ cands ∧
      (∀ c, cands = [c] → w = c) ∧
      ((∃ c ∈ cands, hasScore c = true) →
        hasScore w = true ∧
        (∀ c ∈ cands, hasScore c = true → scoreOf c ≤ scoreOf w) ∧
        ∃ pre post, cands.filter hasScore = pre ++ w :: post ∧
          ∀ y ∈ pre, scoreOf y < scoreOf w) ∧
      ((∀ c ∈ cands, hasScore c = false) →
        (∀ c ∈ cands, c.2.length ≤ w.2.length) ∧
        ∃ pre post, cands = pre ++ w :: post ∧
          ∀ y ∈ pre, y.2.length < w.2.length) := by
  match cands with
  | [] => exact absurd rfl hne
  | [c] =>
    refine ⟨c, rfl, List.mem_singleton.mpr rfl, fun c' h => (List.cons.inj h).1, ?_, ?_⟩
    · rintro ⟨c0, hc0mem, hc0⟩
      have hcs : hasScore c = true := by
        have h := List.mem_singleton.mp hc0mem
        rwa [h] at hc0
      refine ⟨hcs, ?_, [], [], by simp [List.filter, hcs], by simp⟩
      intro c' hc' _
      have h' : c' = c := List.mem_singleton.mp hc'
      rw [h']
    · intro _
      refine ⟨?_, [], [], rfl, by simp⟩
      intro c' hc'
      have h' : c' = c := List.mem_singleton.mp hc'
      rw [h']
  | c1 :: c2 :: rest =>
    cases hf : (c1 :: c2 :: rest).filter hasScore with
    | nil =>
      refine ⟨pickFold (fun p => p.2.length) c1 (c2 :: rest), ?_, ?_, ?_, ?_, ?_⟩
      · simp only [pick_best]
        rw [hf]
      · exact pickFold_mem _ _ _
      · intro c h
        simp at h
      · rintro ⟨c0, hc0mem, hc0⟩
        have := List.filter_eq_nil_iff.mp hf c0 hc0mem
        exact absurd hc0 this
      · intro _
        exact ⟨fun c hc => pickFold_max (fun p => p.2.length) c1 (c2 :: rest) c hc,
          pickFold_split (fun p => p.2.length) c1 (c2 :: rest)⟩
    | cons s ss =>
      have hwmemf : pickFold scoreOf s ss ∈ (c1 :: c2 :: rest).filter hasScore := by
        rw [hf]; exact pickFold_mem _ _ _
      have hwmem : pickFold scoreOf s ss ∈ c1 :: c2 :: rest :=
        (List.mem_filter.mp hwmemf).1
      have hwscore : hasScore (pickFold scoreOf s ss) = true :=
        (List.mem_filter.mp hwmemf).2
      refine ⟨pickFold scoreOf s ss, ?_, hwmem, ?_, ?_, ?_⟩
      · simp only [pick_best]
        rw [hf]
      · intro c h
        simp at h
      · intro _
        refine ⟨hwscore, ?_, ?_⟩
        · intro c hc hsc
          have hcf : c ∈ (c1 :: c2 :: rest).filter hasScore :=
            List.mem_filter.mpr ⟨hc, hsc⟩
          rw [hf] at hcf
          exact pickFold_max scoreOf s ss c hcf
        · obtain ⟨l1, l2, heq, hlt⟩ := pickFold_split scoreOf s ss
          exact ⟨l1, l2, heq, hlt⟩
      · intro hall
        have hs : s ∈ (c1 :: c2 :: rest).filter hasScore := by
          rw [hf]; exact List.mem_cons_self _ _
        have h1 := (List.mem_filter.mp hs).2
        have h2 := hall s (List.mem_filter.mp hs).1
        rw [h1] at h2
        exact absurd h2 (by simp)

/-- Witness for C4 at the specification's own example. -/
theorem pick_best_spec_witness :
    ∃ w, pick_best [("claude", "Analysis...\nConfidence: 70\n..."),
        ("claude_2", "Analysis...\nConfidence: 90\n..."),
        ("claude_3", "Analysis...\nConfidence: 60\n...")] = some w ∧
      w ∈ [("claude", "Analysis...\nConfidence: 70\n..."),
        ("claude_2", "Analysis...\nConfidence: 90\n..."),
        ("claude_3", "Analysis...\nConfidence: 60\n...")] ∧
      (∀ c, [("claude", "Analysis...\nConfidence: 70\n..."),
        ("claude_2", "Analysis...\nConfidence: 90\n..."),
        ("claude_3", "Analysis...\nConfidence: 60\n...")] = [c] → w = c) ∧
      ((∃ c ∈ [("claude", "Analysis...\nConfidence: 70\n..."),
          ("claude_2", "Analysis...\nConfidence: 90\n..."),
          ("claude_3", "Analysis...\nConfidence: 60\n...")], hasScore c = true) →
        hasScore w = true ∧
        (∀ c ∈ [("claude", "Analysis...\nConfidence: 70\n..."),
            ("claude_2", "Analysis...\nConfidence: 90\n..."),
            ("claude_3", "Analysis...\nConfidence: 60\n...")], hasScore c = true →
          scoreOf c ≤ scoreOf w) ∧
        ∃ pre post, ([("claude", "Analysis...\nConfidence: 70\n..."),
            ("claude_2", "Analysis...\nConfidence: 90\n..."),
            ("claude_3", "Analysis...\nConfidence: 60\n...")].filter hasScore)
          = pre ++ w :: post ∧ ∀ y ∈ pre, scoreOf y < scoreOf w) ∧
      ((∀ c ∈ [("claude", "Analysis...\nConfidence: 70\n..."),
          ("claude_2", "Analysis...\nConfidence: 90\n..."),
          ("claude_3", "Analysis...\nConfidence: 60\n...")], hasScore c = false) →
        (∀ c ∈ [("claude", "Analysis...\nConfidence: 70\n..."),
            ("claude_2", "Analysis...\nConfidence: 90\n..."),
            ("claude_3", "Analysis...\nConfidence: 60\n...")], c.2.length ≤ w.2.length) ∧
        ∃ pre post, [("claude", "Analysis...\nConfidence: 70\n..."),
            ("claude_2", "Analysis...\nConfidence: 90\n..."),
            ("claude_3", "Analysis...\nConfidence: 60\n...")] = pre ++ w :: post ∧
          ∀ y ∈ pre, y.2.length < w.2.length) :=
  pick_best_spec [("claude", "Analysis...\nConfidence: 70\n..."),
    ("claude_2", "Analysis...\nConfidence: 90\n..."),
    ("claude_3", "Analysis...\nConfidence: 60\n...")] (by decide)

end Council
